import Mathlib

/-!
# Verification of the tempy configuration-resolution and data-normalization core

Shallow embedding of the Python sources of `noprobelm/tempy`:

* `src/tempy/parser.py`  — `parse_rc`
* `src/tempy/config.py`  — `TempyRC.__init__`, `Args`, `Config.__init__`
* `src/tempy/data.py`    — `WeatherAPI._request_proxy`, `_validate_data`,
  `_parse_weather`, `_parse_forecast`, `parse`
* `src/tempy/__main__.py` and the package's import graph.

Python dicts are modelled as association lists with unique keys in insertion
order; Python strings as Lean `String` with hand-rolled character-level
implementations of `strip` / `lower` / `split("=")` / `startswith("#")`
(restricted to ASCII, which is all the recognized option syntax uses), so that
every definition evaluates by kernel reduction.  Process termination through
`sys.exit` is modelled as an `Except` error carrying the printed message and
the process exit status (CPython: `sys.exit()` with no argument exits with
status 0).  An uncaught `RuntimeError` is a distinct error constructor.
-/

/-- Characters removed by Python `str.strip()` with no argument (ASCII part). -/
def pyIsSpace (c : Char) : Bool :=
  c = ' ' || c = '\t' || c = '\n' || c = '\r' || c = '\x0b' || c = '\x0c'

/-- Python `s.strip()`: drop leading and trailing whitespace. -/
def pyStrip (s : String) : String :=
  ⟨((s.data.dropWhile pyIsSpace).reverse.dropWhile pyIsSpace).reverse⟩

/-- Python `s.lower()` (ASCII). -/
def pyLower (s : String) : String :=
  ⟨s.data.map Char.toLower⟩

/-- Core of Python `s.split("=")`: split a character list at every `=`.
`[]` maps to `[[]]`, matching `"".split("=") == [""]`. -/
def splitEqChars : List Char → List (List Char)
  | [] => [[]]
  | c :: rest =>
    let r := splitEqChars rest
    if c = '=' then [] :: r
    else
      match r with
      | [] => [[c]]
      | h :: t => (c :: h) :: t

/-- Python `s.split("=")`: split on every occurrence of `=` (not only the first). -/
def pySplitEq (s : String) : List String :=
  (splitEqChars s.data).map (fun l => ⟨l⟩)

/-- Python `len(s) > 0 and s.startswith("#")`: the first character is `#`. -/
def pyStartsHash (s : String) : Bool :=
  match s.data with
  | c :: _ => c = '#'
  | [] => false

/-- Python `d[k]` lookup on a dict modelled as an association list
(first match; keys are unique by construction). -/
def alistGet : List (String × String) → String → Option String
  | [], _ => none
  | (k, v) :: rest, key => if key = k then some v else alistGet rest key

/-- Python `d[k] = v` on a dict: replace the value at an existing key in place,
otherwise append the new pair at the end (insertion order). -/
def dictUpd : List (String × String) → String → String → List (String × String)
  | [], k, v => [(k, v)]
  | (k', v') :: rest, k, v =>
    if k' = k then (k, v) :: rest else (k', v') :: dictUpd rest k v

/-- Exceptional process termination: the message printed and the process exit
status.  CPython `sys.exit()` with no argument exits with status 0. -/
structure ProcExit where
  msg : String
  code : Nat
  deriving DecidableEq, Repr

/-- Errors a config-layer call can surface: an uncaught Python `RuntimeError`
(which crashes the process with a traceback) or a `sys.exit` call. -/
inductive PyErr where
  | runtimeError (msg : String)
  | systemExit (e : ProcExit)
  deriving DecidableEq, Repr

/-! ## src/tempy/parser.py -/

/-- Per-line semantics of the loop body of `parse_rc` (src/tempy/parser.py,
lines 7-16): strip the line; skip it when its first character is `#`
(`len(line) > 0 and line.startswith("#")`); split on every `=` and strip and
lowercase each part; `parsed[split[0]] = split[1]` succeeds only when index 1
exists (`except IndexError: pass`), storing the first two parts and dropping
any further ones. -/
def pyLineKV (line : String) : Option (String × String) :=
  let line := pyStrip line
  if pyStartsHash line then none
  else
    let split := (pySplitEq line).map (fun v => pyLower (pyStrip v))
    match split[1]? with
    | some v => some (split.headD "", v)
    | none => none

/-- One iteration of the `for line in contents` loop of `parse_rc`. -/
def parse_rc_line (parsed : List (String × String)) (line : String) :
    List (String × String) :=
  match pyLineKV line with
  | some (k, v) => dictUpd parsed k v
  | none => parsed

/-- Function `parse_rc` (src/tempy/parser.py): fold the per-line step over the file's
lines, starting from the empty dict. -/
def parse_rc (contents : List String) : List (String × String) :=
  contents.foldl parse_rc_line []

/-! ## src/tempy/config.py -/

/-- Constant `VALID_OPTIONS` (src/tempy/config.py line 9). -/
def VALID_OPTIONS : List String := ["location", "units", "api_key"]

/-- Loop `for option in VALID_OPTIONS: if option not in parsed.keys(): parsed[option] = ""`
(src/tempy/config.py lines 41-43).  Setting an absent key appends it. -/
def fillMissing (parsed : List (String × String)) : List (String × String) :=
  VALID_OPTIONS.foldl
    (fun d option => if (alistGet d option).isSome then d else d ++ [(option, "")])
    parsed

/-- Loop `for option in parsed: if option not in VALID_OPTIONS: del parsed[option]`
(src/tempy/config.py lines 45-47).  In CPython 3, deleting an entry of a dict
being iterated makes the very next call to the iterator raise
`RuntimeError: dictionary changed size during iteration`, and that next call
always happens (the size check precedes the exhaustion check); so the loop
completes only when every key is recognized, and otherwise the first
unrecognized key is deleted and the loop raises immediately afterwards. -/
def delInvalidGo : List String → List (String × String) →
    Except PyErr (List (String × String))
  | [], d => Except.ok d
  | k :: rest, d =>
    if k ∈ VALID_OPTIONS then delInvalidGo rest d
    else Except.error (PyErr.runtimeError "dictionary changed size during iteration")

/-- Iterate the deletion loop over the dict's keys in insertion order. -/
def delInvalid (d : List (String × String)) : Except PyErr (List (String × String)) :=
  delInvalidGo (d.map Prod.fst) d

/-- Constructor `TempyRC.__init__` (src/tempy/config.py lines 30-49), on the branch where
the rc file exists and yields the given lines: parse the contents, fill in
missing recognized keys with the empty string, then run the key-deletion loop
(which raises `RuntimeError` whenever an unrecognized key is present). -/
def TempyRC.ofContents (contents : List String) :
    Except PyErr (List (String × String)) :=
  delInvalid (fillMissing (parse_rc contents))

/-- The three recognized option values of a raw rc-side config entry
(the view `tempyrc[option]` that `Config.__init__` reads; a successfully
constructed `TempyRC` always has exactly these three keys). -/
structure RcEntry where
  location : String
  units : String
  api_key : String
  deriving DecidableEq, Repr

/-- Read the three recognized keys out of a loaded `TempyRC` dict. -/
def TempyRC.view (d : List (String × String)) : RcEntry :=
  ⟨(alistGet d "location").getD "", (alistGet d "units").getD "",
    (alistGet d "api_key").getD ""⟩

/-- Value of `parser.usage` as set in `Args.__init__` (src/tempy/config.py line 98). -/
def usageText : String := "tempy <location> <optional args>"

/-- The option values of an `Args` instance (src/tempy/config.py lines 96-125):
`location` is the space-join of the positional tokens (always a string),
`units` is `None` when `--units` is omitted (argparse has no default for it)
and otherwise one of the validated choices, `api_key` defaults to `""`, and
`usage` holds the parser's usage string. -/
structure ArgsEntry where
  location : String
  units : Option String
  api_key : String
  usage : String
  deriving DecidableEq, Repr

/-- Value construction of `Args.__init__`: `" ".join(parsed.location)` for the
positional tokens, the (already validated) `--units` choice, `--key`. -/
def Args.ofParsed (locationWords : List String) (units : Option String)
    (api_key : String) : ArgsEntry :=
  ⟨String.intercalate " " locationWords, units, api_key, usageText⟩

/-- The recognized options, as an enumeration for per-option statements. -/
inductive COpt where
  | location
  | units
  | api_key
  deriving DecidableEq, Repr

/-- Reading `tempyrc[option]`. -/
def RcEntry.get : RcEntry → COpt → String
  | rc, COpt.location => rc.location
  | rc, COpt.units => rc.units
  | rc, COpt.api_key => rc.api_key

/-- Reading `args[option]`: `units` may be Python `None`. -/
def ArgsEntry.get : ArgsEntry → COpt → Option String
  | a, COpt.location => some a.location
  | a, COpt.units => a.units
  | a, COpt.api_key => some a.api_key

/-- Python `a or b` where `a` is `None` or a string and `b` is a string:
`a` when `a` is a non-empty string, otherwise `b`. -/
def pyOr (a : Option String) (b : String) : String :=
  match a with
  | Option.none => b
  | Option.some s => if s = "" then b else s

/-- Assignment `config[option] = args[option] or tempyrc[option]`
(src/tempy/config.py lines 163-164). -/
def mergeOption (rc : RcEntry) (args : ArgsEntry) (o : COpt) : String :=
  pyOr (args.get o) (rc.get o)

/-- The message printed by `Config.__init__` before `sys.exit()` when no
location was resolved (src/tempy/config.py lines 167-169). -/
def locationErrMsg (usage : String) : String :=
  "Error: \x27location\x27 not provided in tempyrc or as command line arg. Usage: " ++ usage

/-- The final configuration stored by `Config.__init__`. -/
structure ResolvedConfig where
  location : String
  units : String
  api_key : String
  deriving DecidableEq, Repr

/-- Constructor `Config.__init__` (src/tempy/config.py lines 161-175): merge each option
with args taking priority, exit (printing a usage message; bare `sys.exit()`,
status 0) when the merged location is empty, default empty merged units to
`"imperial"`, and store the result. -/
def Config.init (rc : RcEntry) (args : ArgsEntry) :
    Except ProcExit ResolvedConfig :=
  let loc := mergeOption rc args COpt.location
  let uni := mergeOption rc args COpt.units
  let key := mergeOption rc args COpt.api_key
  if loc = "" then
    Except.error ⟨locationErrMsg args.usage, 0⟩
  else
    Except.ok ⟨loc, if uni = "" then "imperial" else uni, key⟩

/-- The process exit status `Config.__init__` produces, when it exits. -/
def exitCodeOf : Except ProcExit ResolvedConfig → Option Nat
  | Except.error e => some e.code
  | Except.ok _ => none

/-! ## src/tempy/data.py -/

/-- A JSON number as the Python code observes it: `render` is its `str(x)`
rendering (what an f-string interpolation produces) and `trunc` is its
`int(x)` truncation (used only for `pressure_mb`). -/
structure JNum where
  render : String
  trunc : Int
  deriving DecidableEq, Repr

/-- The fields of the payload's `current` object that the code reads
(measurement fields, plus `condition.text` and `is_day`). -/
structure CurrentW where
  condition_text : String
  is_day : Nat
  temp_f : JNum
  temp_c : JNum
  wind_mph : JNum
  wind_kph : JNum
  wind_dir : String
  gust_mph : JNum
  gust_kph : JNum
  pressure_in : JNum
  pressure_mb : JNum
  precip_in : JNum
  precip_mm : JNum
  vis_miles : JNum
  vis_km : JNum
  humidity : JNum
  cloud : JNum
  uv : JNum
  deriving DecidableEq, Repr

/-- The fields of a `forecast.forecastday[i].day` object that the code reads. -/
structure ForecastW where
  avgtemp_f : JNum
  avgtemp_c : JNum
  mintemp_f : JNum
  mintemp_c : JNum
  maxtemp_f : JNum
  maxtemp_c : JNum
  maxwind_mph : JNum
  maxwind_kph : JNum
  totalprecip_in : JNum
  totalprecip_mm : JNum
  avgvis_miles : JNum
  avgvis_km : JNum
  daily_chance_of_rain : JNum
  daily_chance_of_snow : JNum
  uv : JNum
  deriving DecidableEq, Repr

/-- One entry of `forecast.forecastday`: the code reads only its `day` object. -/
structure ForecastDay where
  day : ForecastW
  deriving DecidableEq, Repr

/-- The payload's `location` object. -/
structure LocationInfo where
  name : String
  region : String
  localtime : String
  deriving DecidableEq, Repr

/-- The raw weather payload as consumed by `WeatherAPI.parse`:
`location{...}`, `current{...}`, `forecast.forecastday[]`. -/
structure RawPayload where
  location : LocationInfo
  current : CurrentW
  forecastday : List ForecastDay
  deriving DecidableEq, Repr

/-- Method `WeatherAPI._parse_weather` (src/tempy/data.py lines 122-168; the
identical method also appears as `Report._parse_weather` in
src/tempy/weather.py lines 92-138): build the ordered current-conditions
table, with imperial or metric sources and suffixes.  Metric pressure is the
only field passed through `int()`. -/
def WeatherAPI.parse_weather (weather : CurrentW) (imperial : Bool) :
    List (String × String) :=
  if imperial = true then
    [("temperature", weather.temp_f.render ++ "°F"),
     ("wind", weather.wind_mph.render ++ " mph " ++ weather.wind_dir),
     ("gusts", weather.gust_mph.render ++ " mph"),
     ("pressure", weather.pressure_in.render ++ " inHg"),
     ("precipitation", weather.precip_in.render ++ " in"),
     ("visibility", weather.vis_miles.render ++ " mi"),
     ("humidity", weather.humidity.render ++ "%"),
     ("cloud cover", weather.cloud.render ++ "%"),
     ("UV index", weather.uv.render)]
  else
    [("temperature", weather.temp_c.render ++ "°C"),
     ("wind", weather.wind_kph.render ++ " kph " ++ weather.wind_dir),
     ("gusts", weather.gust_kph.render ++ " kph"),
     ("pressure", toString weather.pressure_mb.trunc ++ " mb"),
     ("precipitation", weather.precip_mm.render ++ " mm"),
     ("visibility", weather.vis_km.render ++ " km"),
     ("humidity", weather.humidity.render ++ "%"),
     ("cloud cover", weather.cloud.render ++ "%"),
     ("UV index", weather.uv.render)]

/-- Method `WeatherAPI._parse_forecast` (src/tempy/data.py lines 170-216; identical
to `Report._parse_forecast` in src/tempy/weather.py lines 140-186). -/
def WeatherAPI.parse_forecast (forecast : ForecastW) (imperial : Bool) :
    List (String × String) :=
  if imperial = true then
    [("average", forecast.avgtemp_f.render ++ "°F"),
     ("low", forecast.mintemp_f.render ++ "°F"),
     ("high", forecast.maxtemp_f.render ++ "°F"),
     ("gusts", forecast.maxwind_mph.render ++ " mph"),
     ("total precipitation", forecast.totalprecip_in.render ++ " in"),
     ("average visibility", forecast.avgvis_miles.render ++ " mi"),
     ("chance of rain", forecast.daily_chance_of_rain.render ++ "%"),
     ("chance of snow", forecast.daily_chance_of_snow.render ++ "%"),
     ("uv index", forecast.uv.render)]
  else
    [("average", forecast.avgtemp_c.render ++ "°C"),
     ("low", forecast.mintemp_c.render ++ "°C"),
     ("high", forecast.maxtemp_c.render ++ "°C"),
     ("gusts", forecast.maxwind_kph.render ++ " kph"),
     ("total precipitation", forecast.totalprecip_mm.render ++ " mm"),
     ("average visibility", forecast.avgvis_km.render ++ " km"),
     ("chance of rain", forecast.daily_chance_of_rain.render ++ "%"),
     ("chance of snow", forecast.daily_chance_of_snow.render ++ "%"),
     ("uv index", forecast.uv.render)]

/-- The dictionary `WeatherAPI.parse` returns (src/tempy/data.py lines
248-255).  `localtime` is returned by the code as the `datetime` parsed with
`strptime(self.data["location"]["localtime"], "%Y-%m-%d %H:%M")`; no claim
here depends on date arithmetic or formatting, so the value is carried as its
source string unchanged. -/
structure ParsedReport where
  localtime : String
  is_day : Bool
  location : String
  condition : String
  weather_table : List (String × String)
  forecast_tables : List (List (String × String))
  deriving DecidableEq, Repr

/-- Method `WeatherAPI.parse` (src/tempy/data.py lines 218-255): `imperial` is true
exactly when `units == "imperial"`; `location` is `f"{city}, {region}"`
(`_parse_location`); `is_day` is `bool(...)` of the payload integer; the
forecast loop `for day in self.data["forecast"]["forecastday"]` appends one
parsed table per entry — over the whole list, without truncation. -/
def WeatherAPI.parse (data : RawPayload) (units : String) : ParsedReport :=
  let imperial := if units = "imperial" then true else false
  ⟨data.location.localtime,
   data.current.is_day != 0,
   data.location.name ++ ", " ++ data.location.region,
   data.current.condition_text,
   WeatherAPI.parse_weather data.current imperial,
   data.forecastday.foldl
     (fun forecasts day => forecasts ++ [WeatherAPI.parse_forecast day.day imperial])
     []⟩

/-- A parsed proxy/API JSON response body: either it contains an `error`
object (whose `message` the code surfaces) or it is a weather payload. -/
inductive APIJson where
  | errorBody (message : String)
  | payloadBody (p : RawPayload)
  deriving DecidableEq, Repr

/-- Method `WeatherAPI._validate_data` (src/tempy/data.py lines 83-97): when the
parsed body has an `error` key, print the provider message alongside the
requested location and call bare `sys.exit()` (status 0). -/
def WeatherAPI.validate_data (location : String) (data : APIJson) :
    Except ProcExit Unit :=
  match data with
  | APIJson.errorBody m =>
      Except.error ⟨"tempy: \x27" ++ location ++ "\x27: " ++ m ++ " Please try again", 0⟩
  | APIJson.payloadBody _ => Except.ok ()

/-- An HTTP response from the public proxy, as the client observes it: the
status code and the JSON-parsed body. -/
structure ProxyResponse where
  status : Nat
  body : APIJson
  deriving DecidableEq, Repr

/-- Method `WeatherAPI._request_proxy` (src/tempy/data.py lines 44-60), the keyless
path: `data = response.json(); self._validate_data(data); return data`.
The HTTP status code of the response is never inspected. -/
def WeatherAPI.request_proxy (location : String) (response : ProxyResponse) :
    Except ProcExit APIJson :=
  match WeatherAPI.validate_data location response.body with
  | Except.error e => Except.error e
  | Except.ok _ => Except.ok response.body

/-! ## The package's import graph (src/tempy/__main__.py and module sources) -/

/-- A Python module of the `tempy` package: its package-local `from .m import n`
statements in execution order, and the top-level names its body binds when it
executes successfully (imported names included). -/
structure PyModule where
  imports : List (String × String)
  defines : List String
  deriving DecidableEq, Repr

/-- Modelled from the spec: the `console` module (the renderer boundary the
spec treats as an external collaborator) is not under src/; all four modules
that import it expect it to bind the single name `console`. -/
def consoleModule : PyModule := ⟨[], ["console"]⟩

/-- The modules of the package, read off the sources: for each module, its
`from .m import n` statements in order and the top-level names it binds.
`weather.defines` lists the names its body would bind if its imports all
succeeded. -/
def tempyModules (n : String) : Option PyModule :=
  if n = "__main__" then
    some ⟨[("config", "Config"), ("console", "console"), ("weather", "Report")],
      ["sys", "os", "Config", "console", "Report", "main"]⟩
  else if n = "config" then
    some ⟨[("parser", "parse_rc")],
      ["argparse", "os", "sys", "Path", "Optional", "Union", "parse_rc",
       "VALID_OPTIONS", "TempyRC", "Args", "Config"]⟩
  else if n = "parser" then
    some ⟨[], ["TextIO", "parse_rc"]⟩
  else if n = "console" then
    some consoleModule
  else if n = "data" then
    some ⟨[("console", "console")],
      ["sys", "Optional", "datetime", "requests", "console", "WeatherAPI"]⟩
  else if n = "weather" then
    some ⟨[("console", "console"), ("data", "Data")],
      ["os", "datetime", "timedelta", "Path", "box", "Align", "Console",
       "ConsoleOptions", "Group", "RenderResult", "Panel", "Rule", "Column",
       "Table", "Text", "console", "Data", "Report"]⟩
  else if n = "report" then
    some ⟨[("data", "WeatherAPI"), ("console", "console")],
      ["os", "datetime", "timedelta", "Path", "Optional", "WeatherAPI", "box",
       "Align", "Console", "ConsoleOptions", "Group", "RenderResult", "Panel",
       "Rule", "Column", "Table", "Text", "console", "Report"]⟩
  else if n = "themes" then
    some ⟨[], ["Theme", "DEFAULT", "Default"]⟩
  else none

/-- Failure of the import machinery: an unknown module, or a
`from .m import n` statement naming an attribute `m` does not bind. -/
inductive ImportErr where
  | moduleNotFound (m : String)
  | importFail (m : String) (n : String)
  deriving DecidableEq, Repr

/-- Execute a module: run its package-local from-imports in order (each one
loads the target module and requires the requested name among its bindings),
then bind the module's own names.  Stdlib and third-party imports (`sys`,
`argparse`, `requests`, `rich`, ...) are assumed to succeed and are part of
`defines`.  The fuel bounds the import depth (the package has no cycles;
fuel 8 is ample for its depth-3 graph). -/
def loadModule : Nat → String → Except ImportErr (List String)
  | 0, n => Except.error (ImportErr.moduleNotFound n)
  | Nat.succ fuel, n =>
    match tempyModules n with
    | none => Except.error (ImportErr.moduleNotFound n)
    | some m =>
      let r := m.imports.foldl
        (fun acc imp =>
          match acc with
          | Except.error e => Except.error e
          | Except.ok _ =>
            match loadModule fuel imp.1 with
            | Except.error e => Except.error e
            | Except.ok ds =>
              if imp.2 ∈ ds then Except.ok ()
              else Except.error (ImportErr.importFail imp.1 imp.2))
        (Except.ok ())
      match r with
      | Except.error e => Except.error e
      | Except.ok _ => Except.ok m.defines

/-- Starting `python -m tempy` runs the `__main__` module: its imports execute
before any statement of `main()`. -/
def startupResult : Except ImportErr (List String) := loadModule 8 "__main__"

/-- The attribute accesses `main()` would perform if reached: it calls
`Config.from_cli(...)` (src/tempy/__main__.py line 15). -/
def mainBodyCalls : List (String × String) := [("Config", "from_cli")]

/-- The methods the `Config` class defines besides `__init__`
(src/tempy/config.py lines 177-199): only the classmethod `from_default`. -/
def configClassMethods : List String := ["from_default"]

/-! ## Concrete sample inputs -/

/-- A placeholder JSON number rendering as `0`. -/
def jz : JNum := ⟨"0", 0⟩

/-- A sample `current` object. -/
def sampleCurrent : CurrentW :=
  ⟨"Sunny", 1, ⟨"90.0", 90⟩, ⟨"32.2", 32⟩, jz, jz, "N", jz, jz, jz, jz, jz, jz,
    jz, jz, jz, jz, jz⟩

/-- A sample forecast-day `day` object. -/
def sampleDayW : ForecastW := ⟨jz, jz, jz, jz, jz, jz, jz, jz, jz, jz, jz, jz, jz, jz, jz⟩

/-- A sample `forecast.forecastday` entry. -/
def sampleDay : ForecastDay := ⟨sampleDayW⟩

/-- A sample `location` object. -/
def sampleLoc : LocationInfo := ⟨"New York City", "New York", "2024-07-04 17:30"⟩

/-- A sample payload with the usual three forecast days. -/
def samplePayload : RawPayload := ⟨sampleLoc, sampleCurrent, [sampleDay, sampleDay, sampleDay]⟩

/-- A payload carrying four `forecastday` entries. -/
def fourDayPayload : RawPayload :=
  ⟨sampleLoc, sampleCurrent, [sampleDay, sampleDay, sampleDay, sampleDay]⟩

/-! ## Helper lemmas -/

/-- Updating a dict at a key makes lookup at that key return the new value. -/
theorem alistGet_dictUpd_self (d : List (String × String)) (k v : String) :
    alistGet (dictUpd d k v) k = some v := by
  induction d with
  | nil => simp [dictUpd, alistGet]
  | cons p rest ih =>
    obtain ⟨k', v'⟩ := p
    by_cases h : k' = k
    · simp [dictUpd, h, alistGet]
    · have h2 : ¬ k = k' := fun e => h e.symm
      simp [dictUpd, h, alistGet, h2, ih]

/-- Parsing a file with one extra final line is one more per-line step. -/
theorem parse_rc_append (pre : List String) (ln : String) :
    parse_rc (pre ++ [ln]) = parse_rc_line (parse_rc pre) ln := by
  simp [parse_rc, List.foldl_append]

/-- Length of the append-one-element-per-item fold. -/
theorem foldl_append_singleton_length {α β : Type} (f : β → α) :
    ∀ (l : List β) (acc : List α),
      (l.foldl (fun a d => a ++ [f d]) acc).length = acc.length + l.length := by
  intro l
  induction l with
  | nil => intro acc; simp
  | cons x xs ih =>
    intro acc
    simp only [List.foldl_cons]
    rw [ih]
    simp [List.length_append]
    omega

/-! ## Claim theorems -/

/-- C1: for every pair of raw config entries `(rc, args)` and every recognized
option, the merged value (src/tempy/config.py lines 163-164) equals the args
value when it is non-empty, otherwise the rc value, otherwise the empty
string; and when `args.location` is non-empty, the resolved config's location
equals `args.location` regardless of `rc.location`. -/
theorem merge_precedence (rc : RcEntry) (args : ArgsEntry) :
    (∀ o : COpt, mergeOption rc args o =
      if (args.get o).getD "" ≠ "" then (args.get o).getD "" else rc.get o)
    ∧ (args.location ≠ "" →
        ∃ cfg, Config.init rc args = Except.ok cfg ∧ cfg.location = args.location) := by
  constructor
  · intro o
    cases o with
    | location =>
      by_cases h : args.location = "" <;>
        simp [mergeOption, ArgsEntry.get, RcEntry.get, pyOr, h]
    | units =>
      cases hu : args.units with
      | none => simp [mergeOption, ArgsEntry.get, RcEntry.get, pyOr, hu]
      | some s =>
        by_cases h : s = "" <;>
          simp [mergeOption, ArgsEntry.get, RcEntry.get, pyOr, hu, h]
    | api_key =>
      by_cases h : args.api_key = "" <;>
        simp [mergeOption, ArgsEntry.get, RcEntry.get, pyOr, h]
  · intro h
    have hloc : mergeOption rc args COpt.location = args.location := by
      simp [mergeOption, ArgsEntry.get, RcEntry.get, pyOr, h]
    refine ⟨⟨args.location,
      if mergeOption rc args COpt.units = "" then "imperial"
        else mergeOption rc args COpt.units,
      mergeOption rc args COpt.api_key⟩, ?_, rfl⟩
    simp [Config.init, hloc, h]

/-- Witness for `merge_precedence` at concrete inputs: with the rc location
`paris` and the arg location `nyc`, resolution yields location `nyc`. -/
theorem merge_precedence_witness :
    ("nyc" : String) ≠ "" ∧
      ∃ cfg, Config.init ⟨"paris", "metric", "k1"⟩ ⟨"nyc", Option.none, "", usageText⟩ =
          Except.ok cfg ∧ cfg.location = "nyc" :=
  ⟨by decide,
    (merge_precedence ⟨"paris", "metric", "k1"⟩ ⟨"nyc", Option.none, "", usageText⟩).2
      (by decide)⟩

/-- C3 counterexample: with both locations empty, `Config.__init__` prints the
usage error and calls the bare `sys.exit()`, whose process exit status is 0 —
not a non-zero status as the claim asserts. -/
theorem resolve_missing_location_cex :
    Config.init ⟨"", "", ""⟩ ⟨"", Option.none, "", usageText⟩ =
      Except.error ⟨locationErrMsg usageText, 0⟩ ∧
    exitCodeOf (Config.init ⟨"", "", ""⟩ ⟨"", Option.none, "", usageText⟩) = some 0 := by
  constructor <;> rfl

/-- C3 amended: for every pair in which both location values are empty,
resolution prints a usage error referencing the usage text and terminates the
process via `SystemExit` with exit status 0, producing no `ResolvedConfig`. -/
theorem resolve_missing_location (rc : RcEntry) (args : ArgsEntry)
    (h1 : rc.location = "") (h2 : args.location = "") :
    Config.init rc args = Except.error ⟨locationErrMsg args.usage, 0⟩ := by
  simp [Config.init, mergeOption, ArgsEntry.get, RcEntry.get, pyOr, h1, h2]

/-- Witness for `resolve_missing_location` at concrete inputs. -/
theorem resolve_missing_location_witness :
    Config.init ⟨"", "imperial", "key"⟩ ⟨"", Option.none, "k2", usageText⟩ =
      Except.error ⟨locationErrMsg usageText, 0⟩ :=
  resolve_missing_location ⟨"", "imperial", "key"⟩ ⟨"", Option.none, "k2", usageText⟩
    rfl rfl

/-- C5: when both units values are empty and at least one location is
non-empty, resolution succeeds and the resolved units is `imperial`
(src/tempy/config.py lines 172-173). -/
theorem resolve_units_default (rc : RcEntry) (args : ArgsEntry)
    (h1 : (args.units).getD "" = "") (h2 : rc.units = "")
    (h3 : args.location ≠ "" ∨ rc.location ≠ "") :
    ∃ cfg, Config.init rc args = Except.ok cfg ∧ cfg.units = "imperial" := by
  have hu : mergeOption rc args COpt.units = "" := by
    cases hx : args.units with
    | none => simp [mergeOption, ArgsEntry.get, RcEntry.get, pyOr, hx, h2]
    | some s =>
      have hs : s = "" := by simpa [hx] using h1
      simp [mergeOption, ArgsEntry.get, RcEntry.get, pyOr, hx, hs, h2]
  have hl : mergeOption rc args COpt.location ≠ "" := by
    by_cases ha : args.location = ""
    · cases h3 with
      | inl hx => exact absurd ha hx
      | inr hx =>
        simpa [mergeOption, ArgsEntry.get, RcEntry.get, pyOr, ha] using hx
    · simp [mergeOption, ArgsEntry.get, RcEntry.get, pyOr, ha]
  refine ⟨⟨mergeOption rc args COpt.location, "imperial",
    mergeOption rc args COpt.api_key⟩, ?_, rfl⟩
  simp [Config.init, hl, hu]

/-- Witness for `resolve_units_default` at concrete inputs. -/
theorem resolve_units_default_witness :
    ((Option.none : Option String).getD "" = "" ∧ ("" : String) = "" ∧
      ("nyc" : String) ≠ "") ∧
    ∃ cfg, Config.init ⟨"", "", "k"⟩ ⟨"nyc", Option.none, "", usageText⟩ =
        Except.ok cfg ∧ cfg.units = "imperial" :=
  ⟨⟨by decide, by decide, by decide⟩,
    resolve_units_default ⟨"", "", "k"⟩ ⟨"nyc", Option.none, "", usageText⟩
      (by decide) (by decide) (Or.inl (by decide))⟩

/-- C6 counterexample: an rc file carrying `units=kelvin` loads successfully
and resolves (with empty args) to a returned config whose units is `kelvin`,
which is neither `imperial` nor `metric`. -/
theorem resolve_invariant_cex :
    TempyRC.ofContents ["location=nyc", "units=kelvin"] =
      Except.ok [("location", "nyc"), ("units", "kelvin"), ("api_key", "")] ∧
    Config.init (TempyRC.view [("location", "nyc"), ("units", "kelvin"), ("api_key", "")])
        ⟨"", Option.none, "", usageText⟩ = Except.ok ⟨"nyc", "kelvin", ""⟩ ∧
    ¬ (("kelvin" : String) = "imperial" ∨ ("kelvin" : String) = "metric") := by
  refine ⟨by rfl, by rfl, by decide⟩

/-- C6 amended: every config the resolver returns has a non-empty location and
a non-empty units value (units is defaulted to `imperial` only when the merge
is empty; an arbitrary non-empty rc units string is passed through
unvalidated). -/
theorem resolve_invariant (rc : RcEntry) (args : ArgsEntry) (cfg : ResolvedConfig)
    (h : Config.init rc args = Except.ok cfg) :
    cfg.location ≠ "" ∧ cfg.units ≠ "" := by
  simp only [Config.init] at h
  by_cases hl : mergeOption rc args COpt.location = ""
  · rw [if_pos hl] at h
    exact absurd h (by simp)
  · rw [if_neg hl] at h
    injection h with h'
    subst h'
    refine ⟨hl, ?_⟩
    by_cases hu : mergeOption rc args COpt.units = ""
    · simp [hu]
    · simp [hu]

/-- Witness for `resolve_invariant` at concrete inputs. -/
theorem resolve_invariant_witness :
    ("oslo" : String) ≠ "" ∧ ("metric" : String) ≠ "" :=
  resolve_invariant ⟨"oslo", "metric", ""⟩ ⟨"", Option.none, "", usageText⟩
    ⟨"oslo", "metric", ""⟩ (by rfl)

/-- C2: evaluating the loader on an rc file carrying the unrecognized key
`invalid`: `TempyRC.__init__` deletes the key from the dict while iterating
it, so CPython raises `RuntimeError` and the process crashes instead of
ignoring the key silently (contradicting the repo's own test
`config.TempyRC will ignore invalid config options` and the constructor's
docstring `delete erroneous key/value pairs`). -/
theorem tempyrc_invalid_key_crash :
    TempyRC.ofContents ["location=nyc", "invalid=option"] =
      Except.error (PyErr.runtimeError "dictionary changed size during iteration") := by
  rfl

/-- C4 counterexample: the line `location=new=york` is split on every `=`, so
the stored value is `new`, not the intact remainder `new=york`; the
three-part line is kept rather than rejected. -/
theorem parse_rc_split_cex :
    TempyRC.ofContents ["location=new=york"] =
      Except.ok [("location", "new"), ("units", ""), ("api_key", "")] ∧
    ("new" : String) ≠ "new=york" := by
  exact ⟨by rfl, by decide⟩

/-- C4 amended: each line surviving blank/comment skipping is split on every
`=` with all parts trimmed and lowercased; lines yielding at least two parts
are kept, storing the first part as key and the second as value (a value
containing `=` is truncated at the next separator); when a key occurs on
several lines the last occurrence wins, without any error. -/
theorem parse_rc_last_wins (pre : List String) (ln k v : String)
    (h : pyLineKV ln = some (k, v)) :
    alistGet (parse_rc (pre ++ [ln])) k = some v := by
  rw [parse_rc_append]
  simp [parse_rc_line, h, alistGet_dictUpd_self]

/-- Witness for `parse_rc_last_wins`: a later `units` line overrides an
earlier one, with trimming and lowercasing applied. -/
theorem parse_rc_last_wins_witness :
    pyLineKV " units = METRIC " = some ("units", "metric") ∧
    alistGet (parse_rc (["units=imperial"] ++ [" units = METRIC "])) "units" =
      some "metric" :=
  ⟨by rfl, parse_rc_last_wins ["units=imperial"] " units = METRIC " "units" "metric"
    (by rfl)⟩

/-- C7: for every payload with the required current-conditions fields,
normalizing with units `imperial` renders the temperature as `str(temp_f)`
followed by `°F`, and with units `metric` as `str(temp_c)` followed by `°C`. -/
theorem parse_temperature_units (p : RawPayload) :
    alistGet (WeatherAPI.parse p "imperial").weather_table "temperature" =
      some (p.current.temp_f.render ++ "°F") ∧
    alistGet (WeatherAPI.parse p "metric").weather_table "temperature" =
      some (p.current.temp_c.render ++ "°C") := by
  constructor <;> rfl

/-- C8 counterexample: on a proxy response with HTTP status 429 whose JSON
body has no `error` key, `_request_proxy` returns the payload — there is no
`RateLimited` failure and the status is never inspected. -/
theorem proxy_rate_limit_cex :
    WeatherAPI.request_proxy "nyc" ⟨429, APIJson.payloadBody samplePayload⟩ =
      Except.ok (APIJson.payloadBody samplePayload) := by
  rfl

/-- C8 amended: the keyless proxy client never inspects the HTTP status code:
a 429 response is handled exactly like a 200 response with the same JSON
body (generic upstream-error exit when the body has an `error` object,
otherwise the payload is returned); no distinguished rate-limit failure
exists. -/
theorem proxy_status_ignored (location : String) (body : APIJson) :
    WeatherAPI.request_proxy location ⟨429, body⟩ =
      WeatherAPI.request_proxy location ⟨200, body⟩ := by
  rfl

/-- C9 counterexample: a payload with four `forecastday` entries yields four
forecast tables, not three. -/
theorem parse_forecast_length_cex :
    (WeatherAPI.parse fourDayPayload "imperial").forecast_tables.length = 4 ∧
    (4 : Nat) ≠ 3 := by
  exact ⟨by rfl, by decide⟩

/-- C9 amended: the normalizer processes every entry of
`forecast.forecastday` in order, producing exactly one table per entry, so
the number of forecast tables equals the number of entries in the payload
(3 only because the API request asks for 3 days). -/
theorem parse_forecast_all_entries (p : RawPayload) (units : String) :
    (WeatherAPI.parse p units).forecast_tables.length = p.forecastday.length := by
  show (p.forecastday.foldl
      (fun a d => a ++ [WeatherAPI.parse_forecast d.day
        (if units = "imperial" then true else false)]) []).length =
    p.forecastday.length
  simpa using foldl_append_singleton_length
    (fun d => WeatherAPI.parse_forecast d.day
      (if units = "imperial" then true else false)) p.forecastday []

/-- C10: launching the assembled program fails during module import, before
any configuration is resolved or network request issued: resolving
`__main__`'s imports reaches `weather`'s statement `from .data import Data`,
which fails because the data module binds only `WeatherAPI`; moreover the
`main()` body calls `Config.from_cli`, a constructor the `Config` class does
not define (only `from_default` exists). -/
theorem startup_import_failure :
    startupResult = Except.error (ImportErr.importFail "data" "Data") ∧
    "from_cli" ∉ configClassMethods ∧
    "from_default" ∈ configClassMethods ∧
    ("Config", "from_cli") ∈ mainBodyCalls := by
  refine ⟨by rfl, by decide, by decide, by decide⟩
